import Mathlib

/-
Verification development for the Cold-Start-Analyser ingestion service.

The repository consists of three Python files:
  backend/app/schemas/ingest.py  : pydantic models InvocationIngest and IngestResponse
  backend/app/api/router.py      : GET /health and POST /ingest handlers
  backend/app/config.py          : process settings (not needed by any property below)

The embedding below translates the pydantic schema declaration and the route
handlers as they are written.  Timestamps are modelled as integers
(milliseconds since the epoch); JSON numbers are modelled as rationals.
A raw request body is a record of optional fields, where none means the
field is absent from the JSON object.
-/

namespace ColdStartAnalyser

/-- One raw JSON body of a POST /api/v1/ingest request, before validation.
Each field is optional: none models absence of the key from the object. -/
structure RawPayload where
  function_name : Option String := none
  invocation_id : Option String := none
  request_id : Option String := none
  timestamp : Option Int := none
  cold_start : Option Bool := none
  init_duration_ms : Option ℚ := none
  execution_duration_ms : Option ℚ := none
  billed_duration_ms : Option ℚ := none
  memory_used_mb : Option Int := none
  memory_allocated_mb : Option Int := none
  module_timings : Option (List (String × ℚ)) := none
  runtime_version : Option String := none
  architecture : Option String := none

/-- The pydantic model InvocationIngest from backend/app/schemas/ingest.py.
Fields without a default in the Python class are required; the optional
fields default to None.  The class declares no validators and no Field
constraints (Field is imported but never used). -/
structure InvocationIngest where
  function_name : String
  invocation_id : String
  request_id : Option String := none
  timestamp : Int
  cold_start : Bool
  init_duration_ms : Option ℚ := none
  execution_duration_ms : ℚ
  billed_duration_ms : Option ℚ := none
  memory_used_mb : Option Int := none
  memory_allocated_mb : Option Int := none
  module_timings : Option (List (String × ℚ)) := none
  runtime_version : Option String := none
  architecture : Option String := none

/-- Validation failure raised while constructing a pydantic model.
The schema in the source can only fail on a missing required field (it
declares no range or cross-field validators); pydantic reports every
offending field, we keep the first, which preserves the accept/reject
outcome and the accepted value. -/
inductive ValidationError where
  | missingField (field : String)

/-- Construction of an InvocationIngest value from a raw body, exactly as
the pydantic class in backend/app/schemas/ingest.py declares it: the five
fields without defaults must be present; every other field is copied
through, absent ones defaulting to None.  No range check, no cross-field
check and no timestamp bound appears in the source. -/
def InvocationIngest.model_validate (raw : RawPayload) :
    Except ValidationError InvocationIngest :=
  match raw.function_name with
  | none => Except.error (ValidationError.missingField "function_name")
  | some fn =>
    match raw.invocation_id with
    | none => Except.error (ValidationError.missingField "invocation_id")
    | some iid =>
      match raw.timestamp with
      | none => Except.error (ValidationError.missingField "timestamp")
      | some ts =>
        match raw.cold_start with
        | none => Except.error (ValidationError.missingField "cold_start")
        | some cs =>
          match raw.execution_duration_ms with
          | none => Except.error (ValidationError.missingField "execution_duration_ms")
          | some ed =>
            Except.ok
              { function_name := fn
                invocation_id := iid
                request_id := raw.request_id
                timestamp := ts
                cold_start := cs
                init_duration_ms := raw.init_duration_ms
                execution_duration_ms := ed
                billed_duration_ms := raw.billed_duration_ms
                memory_used_mb := raw.memory_used_mb
                memory_allocated_mb := raw.memory_allocated_mb
                module_timings := raw.module_timings
                runtime_version := raw.runtime_version
                architecture := raw.architecture }

/-- The pydantic response model IngestResponse: status defaults to "ok". -/
structure IngestResponse where
  status : String := "ok"
  invocation_id : String

/-- The body of the ingest_data handler in backend/app/api/router.py:
it builds IngestResponse(invocation_id=data.invocation_id) and returns it.
The status field is left at its default.  The TODO in the source marks
storage as unimplemented; the handler performs no other action. -/
def ingest_data (data : InvocationIngest) : IngestResponse :=
  { invocation_id := data.invocation_id }

/-- The POST /api/v1/ingest route as FastAPI executes it: the request body
is validated against InvocationIngest; on success the handler runs and the
response is returned with HTTP 200 (the route decorator sets no
status_code, so the FastAPI default applies); a body validation failure is
answered by the framework with HTTP 422 and an error document, so no
IngestResponse is produced. -/
def ingestEndpoint (raw : RawPayload) : Nat × Option IngestResponse :=
  match InvocationIngest.model_validate raw with
  | Except.ok data => (200, some (ingest_data data))
  | Except.error _ => (422, none)

/-- State-passing form of the ingest handler, over an arbitrary state type:
the handler body in the source only constructs the response from its
argument (storage is a TODO), so its translation returns the state it was
given, unchanged. -/
def ingestWithState {σ : Type} (s : σ) (data : InvocationIngest) :
    σ × IngestResponse :=
  (s, ingest_data data)

/-- State-passing form of payload validation, over an arbitrary state type:
pydantic model construction references only its argument and touches no
module or process state, so its translation returns the state unchanged. -/
def validateWithState {σ : Type} (s : σ) (raw : RawPayload) :
    σ × Except ValidationError InvocationIngest :=
  (s, InvocationIngest.model_validate raw)

/-- Modelled from the spec: the canonical Invocation value of section 3.
No Record Validator or Aggregator exists in the source (the handler body is
a placeholder), so the consumer side of the pipeline is taken from the
specification text.  Fields are those of section 3. -/
structure Invocation where
  function_name : String
  invocation_id : String
  request_id : Option String := none
  timestamp : Int
  cold_start : Bool
  init_duration_ms : Option ℚ := none
  execution_duration_ms : ℚ
  billed_duration_ms : Option ℚ := none
  memory_used_mb : Option Int := none
  memory_allocated_mb : Option Int := none
  module_timings : Option (List (String × ℚ)) := none
  runtime_version : Option String := none
  architecture : Option String := none

/-- Modelled from the spec: the FunctionStats record of section 3, the
per-function rolling window state owned by the Aggregator, which is absent
from the source. -/
structure FunctionStats where
  window_start : Int
  window_end : Int
  total_count : Nat
  cold_start_count : Nat
  exec_duration_sum : ℚ
  exec_duration_sq_sum : ℚ
  init_duration_sum : ℚ
  last_updated : Int

/-- Modelled from the spec: the fresh window state created when a function
is first seen, or after a window reset (counts and sums zero, window
anchored at the current instant). -/
def FunctionStats.empty (t : Int) : FunctionStats :=
  { window_start := t
    window_end := t
    total_count := 0
    cold_start_count := 0
    exec_duration_sum := 0
    exec_duration_sq_sum := 0
    init_duration_sum := 0
    last_updated := t }

/-- Modelled from the spec: one Aggregator folding step of section 4.3 —
increment the counts, accumulate the duration sums (init duration only for
cold starts), stamp last_updated. -/
def FunctionStats.fold (s : FunctionStats) (now : Int) (inv : Invocation) :
    FunctionStats :=
  { s with
    total_count := s.total_count + 1
    cold_start_count := s.cold_start_count + (if inv.cold_start then 1 else 0)
    exec_duration_sum := s.exec_duration_sum + inv.execution_duration_ms
    exec_duration_sq_sum :=
      s.exec_duration_sq_sum + inv.execution_duration_ms * inv.execution_duration_ms
    init_duration_sum :=
      s.init_duration_sum + (if inv.cold_start then inv.init_duration_ms.getD 0 else 0)
    last_updated := now }

/-- Modelled from the spec: the Aggregator loop body applied to one drained
batch for a single function — fold the invocations in arrival order. -/
def foldInvocations (now : Int) (s : FunctionStats) (invs : List Invocation) :
    FunctionStats :=
  invs.foldl (fun acc inv => acc.fold now inv) s

/-- Modelled from the spec: the immutable snapshot emitted to the Flush
Sink when a window closes, carrying the window counts plus the derived
metrics of section 4.3.  The cold-start rate is cold_start_count divided by
total_count, taken as 0 for an empty window per section 8. -/
structure FunctionSnapshot where
  total_count : Nat
  cold_start_count : Nat
  cold_start_rate : ℚ
  mean_exec_duration_ms : ℚ
  mean_init_duration_ms : ℚ
  exec_duration_variance : ℚ

/-- Modelled from the spec: snapshot derivation from a window state.
Means and variance guard the empty window the same way the rate does. -/
def FunctionStats.snapshot (s : FunctionStats) : FunctionSnapshot :=
  { total_count := s.total_count
    cold_start_count := s.cold_start_count
    cold_start_rate :=
      if s.total_count = 0 then 0
      else (s.cold_start_count : ℚ) / (s.total_count : ℚ)
    mean_exec_duration_ms :=
      if s.total_count = 0 then 0 else s.exec_duration_sum / (s.total_count : ℚ)
    mean_init_duration_ms :=
      if s.cold_start_count = 0 then 0
      else s.init_duration_sum / (s.cold_start_count : ℚ)
    exec_duration_variance :=
      if s.total_count = 0 then 0
      else s.exec_duration_sq_sum / (s.total_count : ℚ)
        - (s.exec_duration_sum / (s.total_count : ℚ))
          * (s.exec_duration_sum / (s.total_count : ℚ)) }

/-
Concrete request bodies used to evaluate the embedded code.
-/

/-- A cold-start body that carries no init_duration_ms. -/
def payloadColdNoInit : RawPayload :=
  { function_name := some "f"
    invocation_id := some "inv-1"
    timestamp := some 0
    cold_start := some true
    execution_duration_ms := some 12 }

/-- A minimal well-formed body. -/
def payloadValid : RawPayload :=
  { function_name := some "f"
    invocation_id := some "inv-2"
    timestamp := some 0
    cold_start := some false
    execution_duration_ms := some 12 }

/-- A body with negative durations. -/
def payloadNegativeDur : RawPayload :=
  { function_name := some "f"
    invocation_id := some "inv-3"
    timestamp := some 0
    cold_start := some true
    init_duration_ms := some (-3)
    execution_duration_ms := some (-5) }

/-- A body missing the required execution_duration_ms field. -/
def payloadMissingExec : RawPayload :=
  { function_name := some "f"
    invocation_id := some "inv-4"
    timestamp := some 0
    cold_start := some false }

/-- A body reporting more memory used than allocated. -/
def payloadMemSwap : RawPayload :=
  { function_name := some "f"
    invocation_id := some "inv-5"
    timestamp := some 0
    cold_start := some false
    execution_duration_ms := some 12
    memory_used_mb := some 100
    memory_allocated_mb := some 50 }

/-- A body reporting negative memory use. -/
def payloadMemNeg : RawPayload :=
  { function_name := some "f"
    invocation_id := some "inv-6"
    timestamp := some 0
    cold_start := some false
    execution_duration_ms := some 12
    memory_used_mb := some (-5)
    memory_allocated_mb := some 50 }

/-- A body stamped around the year 3000, far beyond any 24h skew. -/
def payloadFarFuture : RawPayload :=
  { function_name := some "f"
    invocation_id := some "inv-7"
    timestamp := some 32503680000000
    cold_start := some false
    execution_duration_ms := some 12 }

/-- A body stamped long before any 7-day retention horizon. -/
def payloadFarPast : RawPayload :=
  { function_name := some "f"
    invocation_id := some "inv-8"
    timestamp := some (-1000000000)
    cold_start := some false
    execution_duration_ms := some 12 }

/-- A body used to witness the purity of validation. -/
def payloadPure : RawPayload :=
  { function_name := some "f"
    invocation_id := some "inv-9"
    timestamp := some 0
    cold_start := some true
    init_duration_ms := some 40
    execution_duration_ms := some 12 }

/-- Three invocations of one function, the first a cold start. -/
def invColdA : Invocation :=
  { function_name := "f1"
    invocation_id := "a"
    timestamp := 0
    cold_start := true
    init_duration_ms := some 50
    execution_duration_ms := 10 }

/-- Second sample invocation, a warm start. -/
def invWarmB : Invocation :=
  { function_name := "f1"
    invocation_id := "b"
    timestamp := 1
    cold_start := false
    execution_duration_ms := 20 }

/-- Third sample invocation, a warm start. -/
def invWarmC : Invocation :=
  { function_name := "f1"
    invocation_id := "c"
    timestamp := 2
    cold_start := false
    execution_duration_ms := 30 }

/-- A validated record with every optional field of interest set. -/
def ingestRecordA : InvocationIngest :=
  { function_name := "f1"
    invocation_id := "same-id"
    timestamp := 0
    cold_start := true
    init_duration_ms := some 50
    execution_duration_ms := 10 }

/-- A validated record sharing only the invocation_id with ingestRecordA. -/
def ingestRecordB : InvocationIngest :=
  { function_name := "g2"
    invocation_id := "same-id"
    request_id := some "req-9"
    timestamp := 999
    cold_start := false
    execution_duration_ms := 77
    billed_duration_ms := some 80
    memory_used_mb := some 128
    memory_allocated_mb := some 256
    runtime_version := some "python3.12"
    architecture := some "arm64" }

/-- C1: the claim says a raw payload with cold_start = true and no
init_duration_ms fails validation with a ValidationError.  The schema in
the source declares no such rule: construction succeeds and yields a value
whose init_duration_ms is None. -/
theorem cold_start_missing_init_accepted :
    ∃ v, InvocationIngest.model_validate payloadColdNoInit = Except.ok v ∧
      v.cold_start = true ∧ v.init_duration_ms = none :=
  ⟨_, rfl, rfl, rfl⟩

/-- C2: the claim says the ingest route answers 202 on accept, 400 on
validation failure and 503 on buffer-full.  The route in the source sets no
status_code, so an accepted body is answered with 200; a validation failure
is answered by the framework with 422; no buffer exists, so every request
is answered with 200 or 422. -/
theorem ingest_endpoint_status_codes :
    ingestEndpoint payloadValid =
      (200, some { status := "ok", invocation_id := "inv-2" }) ∧
    ∀ raw : RawPayload,
      (ingestEndpoint raw).1 = 200 ∨ (ingestEndpoint raw).1 = 422 := by
  refine ⟨rfl, fun raw => ?_⟩
  rcases h : InvocationIngest.model_validate raw with e | v <;>
    simp [ingestEndpoint, h]

/-- C3: the handler echoes the invocation_id of the payload it was given
and leaves every other part of the program state unchanged; storage is an
unimplemented TODO in the source. -/
theorem ingest_echoes_id_and_changes_no_state :
    ∀ (σ : Type) (s : σ) (d : InvocationIngest),
      (ingestWithState s d).2.invocation_id = d.invocation_id ∧
      (ingestWithState s d).1 = s :=
  fun _ _ _ => ⟨rfl, rfl⟩

/-- C4: the claim says execution_duration_ms must be present and at least 0
and init_duration_ms must be at least 0 when present.  The source enforces
only presence: a body with execution_duration_ms = -5 and
init_duration_ms = -3 is accepted unchanged, while a body missing
execution_duration_ms is rejected. -/
theorem duration_range_rules_not_enforced :
    (∃ v, InvocationIngest.model_validate payloadNegativeDur = Except.ok v ∧
      v.execution_duration_ms = -5 ∧ v.init_duration_ms = some (-3)) ∧
    InvocationIngest.model_validate payloadMissingExec =
      Except.error (ValidationError.missingField "execution_duration_ms") :=
  ⟨⟨_, rfl, rfl, rfl⟩, rfl⟩

/-- C5: the claim says that when both memory fields are present the body is
accepted only if both are at least 0 and used is at most allocated.  The
source checks neither: used = 100 with allocated = 50 is accepted, and so
is a negative used value. -/
theorem memory_rules_not_enforced :
    (∃ v, InvocationIngest.model_validate payloadMemSwap = Except.ok v ∧
      v.memory_used_mb = some 100 ∧ v.memory_allocated_mb = some 50) ∧
    (∃ v, InvocationIngest.model_validate payloadMemNeg = Except.ok v ∧
      v.memory_used_mb = some (-5)) :=
  ⟨⟨_, rfl, rfl, rfl⟩, ⟨_, rfl, rfl⟩⟩

/-- C6: the claim says timestamps beyond the skew or retention bounds fail
validation with a StaleRecordError.  The source has no clock, no bounds and
no StaleRecordError: a timestamp around the year 3000 and one from long
before any retention horizon are both accepted unchanged. -/
theorem timestamp_bounds_not_enforced :
    (∃ v, InvocationIngest.model_validate payloadFarFuture = Except.ok v ∧
      v.timestamp = 32503680000000) ∧
    (∃ v, InvocationIngest.model_validate payloadFarPast = Except.ok v ∧
      v.timestamp = -1000000000) :=
  ⟨⟨_, rfl, rfl⟩, ⟨_, rfl, rfl⟩⟩

/-- C7: for every window state the Aggregator can reach by folding a batch
of invocations into a fresh window, the emitted snapshot derives
cold_start_rate as cold_start_count divided by total_count when
total_count is positive, and as 0 when total_count is 0. -/
theorem snapshot_cold_start_rate (start now : Int) (invs : List Invocation) :
    (0 < (foldInvocations now (FunctionStats.empty start) invs).total_count →
      (FunctionStats.snapshot
          (foldInvocations now (FunctionStats.empty start) invs)).cold_start_rate =
        ((foldInvocations now (FunctionStats.empty start) invs).cold_start_count : ℚ) /
          ((foldInvocations now (FunctionStats.empty start) invs).total_count : ℚ)) ∧
    ((foldInvocations now (FunctionStats.empty start) invs).total_count = 0 →
      (FunctionStats.snapshot
          (foldInvocations now (FunctionStats.empty start) invs)).cold_start_rate = 0) := by
  constructor
  · intro h
    simp [FunctionStats.snapshot, h.ne']
  · intro h
    simp [FunctionStats.snapshot, h]

/-- Witness for C7: a fresh window folded over three concrete invocations
has a positive count, and its snapshot rate is the count quotient. -/
theorem snapshot_cold_start_rate_witness :
    (FunctionStats.snapshot
        (foldInvocations 5 (FunctionStats.empty 0)
          [invColdA, invWarmB, invWarmC])).cold_start_rate =
      ((foldInvocations 5 (FunctionStats.empty 0)
          [invColdA, invWarmB, invWarmC]).cold_start_count : ℚ) /
        ((foldInvocations 5 (FunctionStats.empty 0)
          [invColdA, invWarmB, invWarmC]).total_count : ℚ) :=
  (snapshot_cold_start_rate 0 5 [invColdA, invWarmB, invWarmC]).1 (by decide)

/-- C8: validation is a pure, deterministic function of the raw payload:
on equal payloads the outcome is equal whatever the ambient state is, and
the ambient state is returned unchanged. -/
theorem model_validate_pure :
    ∀ (σ : Type) (s t : σ) (p q : RawPayload), p = q →
      (validateWithState s p).2 = (validateWithState t q).2 ∧
      (validateWithState s p).1 = s := by
  intro σ s t p q h
  subst h
  exact ⟨rfl, rfl⟩

/-- Witness for C8: two runs of validation on the same concrete payload
from different states agree, and the state comes back unchanged. -/
theorem model_validate_pure_witness :
    (validateWithState (0 : Nat) payloadPure).2 =
      (validateWithState (1 : Nat) payloadPure).2 ∧
    (validateWithState (0 : Nat) payloadPure).1 = 0 :=
  model_validate_pure Nat 0 1 payloadPure payloadPure rfl

/-- C9: the status field of every response produced by the handler is the
constant "ok", the default of IngestResponse, which the handler never
overrides. -/
theorem ingest_status_always_ok :
    ∀ d : InvocationIngest, (ingest_data d).status = "ok" :=
  fun _ => rfl

/-- C10: the response of the handler depends only on the invocation_id of
the validated payload: records equal on that field produce equal
responses. -/
theorem ingest_depends_only_on_invocation_id :
    ∀ d₁ d₂ : InvocationIngest, d₁.invocation_id = d₂.invocation_id →
      ingest_data d₁ = ingest_data d₂ := by
  intro d₁ d₂ h
  simp [ingest_data, h]

/-- Witness for C10: two records sharing only their invocation_id and
differing in every other populated field produce the same response. -/
theorem ingest_depends_only_on_invocation_id_witness :
    ingest_data ingestRecordA = ingest_data ingestRecordB :=
  ingest_depends_only_on_invocation_id ingestRecordA ingestRecordB rfl

end ColdStartAnalyser
